import Mathlib

/-!
Verification of the pulse-link distributed metronome core.

This file shallowly embeds the core data model and operations of the
repository (clock-offset estimation in `src/sync/stats.ts`, the lookahead
metronome scheduler in `src/audio/metronome.ts`, the leader state machine in
`src/state/leader-machine.ts` together with the room-state manager, and the
peer state machine in `src/state/peer-machine.ts`) and proves or refutes the
specification's claims about them.

Modelling conventions:
- JavaScript numbers are modelled as rationals (`ℚ`); all arithmetic that the
  code performs on timestamps, tempos and offsets is exact in this model.
- Stateful classes become structures with explicit state-passing functions.
- Reads of `performance.now()` and of the audio context's `currentTime` that
  happen inside one synchronous call are modelled as explicit `now` /
  `contextTime` parameters of that call.
- Code that throws becomes `Except String`; code paths that silently return
  keep a plain function type.
- Outgoing broadcasts are returned as an explicit list of `ControlMsg`.
-/

/-! ## Stats filters and ClockSync (`src/sync/stats.ts`) -/

/-- `RTT_WINDOW_SIZE` from stats.ts. -/
def RTT_WINDOW_SIZE : Nat := 10

/-- `EMA_ALPHA` from stats.ts (0.3). -/
def EMA_ALPHA : ℚ := 3 / 10

/-- `RTTWindow.add`: push the sample, then drop the oldest sample when the
window exceeds its capacity (the source pushes one element then `shift()`s
once if `length > maxSize`). -/
def rttWindowAdd (samples : List ℚ) (rtt : ℚ) : List ℚ :=
  let pushed := samples ++ [rtt]
  if RTT_WINDOW_SIZE < pushed.length then pushed.drop 1 else pushed

/-- Ascending insertion of one element, used to model the numeric ascending
sort `[...samples].sort((a, b) => a - b)` of the source. -/
def insertAsc (x : ℚ) : List ℚ → List ℚ
  | [] => [x]
  | y :: ys => if x ≤ y then x :: y :: ys else y :: insertAsc x ys

/-- Ascending sort of the RTT samples. -/
def sortAsc : List ℚ → List ℚ
  | [] => []
  | x :: xs => insertAsc x (sortAsc xs)

/-- `RTTWindow.getMedian`: `null` on an empty window; else the middle element
of the ascending sort, averaging the two middle elements when the length is
even. -/
def getMedian (samples : List ℚ) : Option ℚ :=
  if samples.isEmpty then none
  else
    let sorted := sortAsc samples
    let mid := sorted.length / 2
    if sorted.length % 2 = 0 then
      some ((sorted.getD (mid - 1) 0 + sorted.getD mid 0) / 2)
    else
      some (sorted.getD mid 0)

/-- `EMAFilter.update`: first sample is adopted as-is, afterwards
`alpha * new + (1 - alpha) * previous`. The filter's stored value is the
`Option ℚ` argument (`none` models the `null` initial value). -/
def emaUpdate (value : Option ℚ) (newValue : ℚ) : ℚ :=
  match value with
  | none => newValue
  | some prev => EMA_ALPHA * newValue + (1 - EMA_ALPHA) * prev

/-- State of a `ClockSync` instance: the RTT window's samples, the EMA
filter's stored value, `currentOffsetMs` and `lastRTT`. -/
structure ClockSync where
  rttWindow : List ℚ
  offsetFilter : Option ℚ
  currentOffsetMs : ℚ
  lastRTT : ℚ
deriving DecidableEq

/-- Freshly constructed `ClockSync`: empty window, empty filter, offset 0. -/
def ClockSync.init : ClockSync :=
  { rttWindow := [], offsetFilter := none, currentOffsetMs := 0, lastRTT := 0 }

/-- `MIN_SAMPLES_FOR_STABILITY` from clock.ts. -/
def MIN_SAMPLES_FOR_STABILITY : Nat := 5

/-- The `ClockStats` record returned by `processPong`/`getStats`. -/
structure ClockStats where
  offsetMs : ℚ
  rtt : ℚ
  samples : Nat
  stable : Bool
deriving DecidableEq

/-- `ClockSync.getStats`. -/
def ClockSync.getStats (s : ClockSync) : ClockStats :=
  { offsetMs := s.currentOffsetMs
    rtt := (getMedian s.rttWindow).getD s.lastRTT
    samples := s.rttWindow.length
    stable := decide (MIN_SAMPLES_FOR_STABILITY ≤ s.rttWindow.length) }

/-- `ClockSync.processPong`: computes `rtt = t4 - t1 - (t3 - t2)`, records it
in the window and as `lastRTT`, computes `rawOffset = (t2 - t1 + (t3 - t4)) / 2`,
and feeds the raw offset through the EMA filter only when
`rtt ≤ median * 1.5` for the median of the just-updated window. -/
def ClockSync.processPong (s : ClockSync) (t1 t2 t3 t4 : ℚ) :
    ClockSync × ClockStats :=
  let rtt := t4 - t1 - (t3 - t2)
  let window := rttWindowAdd s.rttWindow rtt
  let rawOffset := (t2 - t1 + (t3 - t4)) / 2
  let s1 : ClockSync := { s with rttWindow := window, lastRTT := rtt }
  let s2 : ClockSync :=
    match getMedian window with
    | some m =>
      if rtt ≤ m * (3 / 2) then
        let v := emaUpdate s1.offsetFilter rawOffset
        { s1 with offsetFilter := some v, currentOffsetMs := v }
      else s1
    | none => s1
  (s2, s2.getStats)

/-- `ClockSync.setOffsetMs`: route a leader-pushed offset through the same
EMA filter and adopt the result. -/
def ClockSync.setOffsetMs (s : ClockSync) (offsetMs : ℚ) : ClockSync :=
  let v := emaUpdate s.offsetFilter offsetMs
  { s with offsetFilter := some v, currentOffsetMs := v }

/-- `ClockSync.leaderToPeerTime`. -/
def ClockSync.leaderToPeerTime (s : ClockSync) (leaderMs : ℚ) : ℚ :=
  leaderMs + s.currentOffsetMs

/-- `ClockSync.peerToLeaderTime`. -/
def ClockSync.peerToLeaderTime (s : ClockSync) (peerMs : ℚ) : ℚ :=
  peerMs - s.currentOffsetMs

/-- `ClockSync.reset`: clears window, filter, offset and last RTT. -/
def ClockSync.reset (_s : ClockSync) : ClockSync := ClockSync.init

/-! ## Metronome lookahead scheduler (`src/audio/metronome.ts`) -/

/-- `LOOKAHEAD_MS` from metronome.ts. -/
def LOOKAHEAD_MS : ℚ := 500

/-- `BEATS_PER_MEASURE` from metronome.ts. -/
def BEATS_PER_MEASURE : Int := 4

/-- The `BeatGrid` value type. -/
structure BeatGrid where
  bpm : ℚ
  anchorPerformanceMs : ℚ
  beatIndexAtAnchor : Int
deriving DecidableEq

/-- State of a `Metronome` instance. `scheduledSources` holds the audio-context
times of the buffer sources scheduled but not yet played; `scheduledVisualTimeoutIds`
holds the play times of the pending visual-trigger timeouts; `hasBeatCallback`
records whether an `onBeatScheduled` callback is registered. The audio context
itself is external: its `currentTime` is passed in where the source reads it. -/
structure Metronome where
  bpm : ℚ
  isRunning : Bool
  schedulerIntervalId : Option Nat
  beatGrid : Option BeatGrid
  nextBeatIndex : Int
  nextScheduleTimeMs : ℚ
  scheduledSources : List ℚ
  scheduledVisualTimeoutIds : List ℚ
  hasBeatCallback : Bool
  waitingForUserGesture : Bool
deriving DecidableEq

/-- Freshly constructed `Metronome`. -/
def Metronome.init : Metronome :=
  { bpm := 120, isRunning := false, schedulerIntervalId := none, beatGrid := none
    nextBeatIndex := 0, nextScheduleTimeMs := 0, scheduledSources := []
    scheduledVisualTimeoutIds := [], hasBeatCallback := false
    waitingForUserGesture := false }

/-- `Metronome.calculateBeatTime`: anchor time plus whole beats at
`60000 / bpm` ms per beat (0 when no grid is set, as in the source). -/
def Metronome.calculateBeatTime (m : Metronome) (beatIndex : Int) : ℚ :=
  match m.beatGrid with
  | none => 0
  | some g => g.anchorPerformanceMs + (beatIndex - g.beatIndexAtAnchor) * (60000 / g.bpm)

/-- `Metronome.clearScheduledSounds`: stops every tracked audio source and
cancels every pending visual timeout, emptying both tracking lists. -/
def Metronome.clearScheduledSounds (m : Metronome) : Metronome :=
  { m with scheduledSources := [], scheduledVisualTimeoutIds := [] }

/-- `Metronome.resetScheduleCursor`: recompute the next-beat cursor from the
current time and the active grid, flooring (clamped at 0) the elapsed beats. -/
def Metronome.resetScheduleCursor (now : ℚ) (m : Metronome) : Metronome :=
  match m.beatGrid with
  | none => m
  | some g =>
    let msPerBeat := 60000 / g.bpm
    let elapsedMs := now - g.anchorPerformanceMs
    let elapsedBeats := elapsedMs / msPerBeat
    let beatsSinceAnchor : Int := max 0 ⌊elapsedBeats⌋
    let idx := g.beatIndexAtAnchor + beatsSinceAnchor
    { m with nextBeatIndex := idx
             nextScheduleTimeMs := m.calculateBeatTime idx }

/-- `Metronome.performanceToAudioContext`: convert a `performance.now()`
timestamp to audio-context seconds using the current clock pair. -/
def performanceToAudioContext (performanceMs nowPerformance nowContext : ℚ) : ℚ :=
  nowContext + (performanceMs - nowPerformance) / 1000

/-- `Metronome.scheduleClick`: create and track one buffer source at the given
audio-context time (accent vs regular voice chosen by `beatIndex % 4`, an
audio-only effect), and, when a beat callback is registered, arm and track one
visual timeout at the corresponding play time. -/
def Metronome.scheduleClick (m : Metronome) (now contextNow audioContextTime : ℚ)
    (_beatIndex : Int) : Metronome :=
  let m1 := { m with scheduledSources := m.scheduledSources ++ [audioContextTime] }
  let playTimeMs := now + (audioContextTime - contextNow) * 1000
  if m.hasBeatCallback then
    { m1 with scheduledVisualTimeoutIds := m1.scheduledVisualTimeoutIds ++ [playTimeMs] }
  else m1

/-- One-iteration-at-a-time unfolding of the `scheduleAhead` while loop:
while `nextScheduleTimeMs < target`, compute the beat time of the cursor beat,
schedule the click when its audio-context time is still in the future, then
advance the cursor. The fuel argument is a loop bound supplied by the caller;
`scheduleAhead` passes enough fuel to cover every iteration the source's loop
performs whenever the grid tempo is positive (for a non-positive tempo the
source loop would not terminate). -/
def scheduleAheadLoop (now contextTime target : ℚ) : Nat → Metronome → Metronome
  | 0, m => m
  | fuel + 1, m =>
    if m.nextScheduleTimeMs < target then
      let beatTimeMs := m.calculateBeatTime m.nextBeatIndex
      let beatContextTime := performanceToAudioContext beatTimeMs now contextTime
      let m1 :=
        if contextTime < beatContextTime then
          m.scheduleClick now contextTime beatContextTime m.nextBeatIndex
        else m
      let m2 := { m1 with nextBeatIndex := m1.nextBeatIndex + 1
                          nextScheduleTimeMs := beatTimeMs }
      scheduleAheadLoop now contextTime target fuel m2
    else m

/-- `Metronome.scheduleAhead`: no-op without a grid; otherwise run the refill
loop up to `now + LOOKAHEAD_MS`. The fuel covers one initial iteration plus
one per whole beat between the cursor beat's time and the target. -/
def Metronome.scheduleAhead (m : Metronome) (now contextTime : ℚ) : Metronome :=
  match m.beatGrid with
  | none => m
  | some g =>
    let target := now + LOOKAHEAD_MS
    let msPerBeat := 60000 / g.bpm
    let fuel : Nat :=
      (1 + max 0 ⌈(target - m.calculateBeatTime m.nextBeatIndex) / msPerBeat⌉).toNat + 1
    scheduleAheadLoop now contextTime target fuel m

/-- `Metronome.setBeatGrid`: when running, first drop the old lookahead clicks;
install the grid and its tempo; recompute the cursor; when running, refill the
lookahead window synchronously. -/
def Metronome.setBeatGrid (m : Metronome) (now contextTime : ℚ) (grid : BeatGrid) :
    Metronome :=
  let wasRunning := m.isRunning
  let m1 := if wasRunning then m.clearScheduledSounds else m
  let m2 := { m1 with beatGrid := some grid, bpm := grid.bpm }
  let m3 := m2.resetScheduleCursor now
  if wasRunning then m3.scheduleAhead now contextTime else m3

/-- `Metronome.start`: returns immediately when already running; otherwise
adopts the tempo, marks running, and either synthesizes a grid anchored at
`now` (none set) or patches the grid's tempo (tempo differs). The audio
context resume and the arming of the periodic refill interval happen in an
asynchronous continuation and are not part of this synchronous step. -/
def Metronome.start (m : Metronome) (now contextTime bpm : ℚ) : Metronome :=
  if m.isRunning then m
  else
    let m1 := { m with bpm := bpm, isRunning := true }
    match m1.beatGrid with
    | none =>
      m1.setBeatGrid now contextTime
        { bpm := bpm, anchorPerformanceMs := now, beatIndexAtAnchor := 0 }
    | some g =>
      if g.bpm ≠ bpm then
        { m1 with beatGrid := some { g with bpm := bpm }, nextScheduleTimeMs := now }
      else m1

/-- `Metronome.stop`: mark not running, disarm the user-gesture listeners,
cancel the periodic refill interval, and stop/clear every scheduled sound and
pending visual timeout. -/
def Metronome.stop (m : Metronome) : Metronome :=
  let m1 := { m with isRunning := false, waitingForUserGesture := false
                     schedulerIntervalId := none }
  m1.clearScheduledSounds

/-! ## Room state (`src/state/room-state.ts`) and leader machine
(`src/state/leader-machine.ts`) -/

/-- Leader state machine states. -/
inductive LeaderState
  | L_IDLE
  | L_ROOM_OPEN
  | L_RUNNING
  | L_CLOSING
deriving DecidableEq

/-- Room status values from the `RoomState` type. -/
inductive RoomStatus
  | roomOpen
  | countdown
  | running
  | closed
deriving DecidableEq

/-- Leader-owned room state. The per-peer connection bookkeeping
(`peers`, `addPeer`, `markPeerConnected`, `removePeer`, `getStalePeerIds`)
is not read or written by any verified operation and is omitted. -/
structure RoomState where
  roomId : String
  leaderId : String
  bpm : ℚ
  version : Nat
  status : RoomStatus
  startAtLeaderMs : Option ℚ
  beatIndexAtAnchor : Option Int
deriving DecidableEq

/-- `RoomStateManager` constructor state. -/
def RoomState.mk0 (roomId leaderId : String) (bpm : ℚ) : RoomState :=
  { roomId := roomId, leaderId := leaderId, bpm := bpm, version := 0
    status := RoomStatus.roomOpen, startAtLeaderMs := none, beatIndexAtAnchor := none }

/-- `RoomStateManager.setBPM`: stores the tempo and bumps the version. -/
def RoomState.setBPM (s : RoomState) (bpm : ℚ) : RoomState :=
  { s with bpm := bpm, version := s.version + 1 }

/-- `RoomStateManager.setStatus`. -/
def RoomState.setStatus (s : RoomState) (status : RoomStatus) : RoomState :=
  { s with status := status }

/-- Modelled from the spec: `RoomStateManager.setBeatAnchor`, called by the
leader machine but absent from the sources provided (only an older
room-state version with `setStartTime` is present). Per the spec's data
model, it stores the anchor time and anchor beat index (`anchorTimeAtHost`,
`anchorBeatIndex`); the version is bumped only on tempo changes, so
`setBeatAnchor` leaves it unchanged. -/
def RoomState.setBeatAnchor (s : RoomState) (anchorMs : ℚ) (beatIndex : Int) :
    RoomState :=
  { s with startAtLeaderMs := some anchorMs, beatIndexAtAnchor := some beatIndex }

/-- Control-channel broadcasts emitted by the leader machine. -/
inductive ControlMsg
  | startAnnounce (bpm : ℚ) (version : Nat) (anchorLeaderMs : ℚ) (beatIndexAtAnchor : Int)
  | paramUpdate (bpm : ℚ) (version : Nat)
  | stopAnnounce
  | roomClosed
deriving DecidableEq

/-- `BPM_CHANGE_LEAD_MS` from leader-machine.ts. -/
def BPM_CHANGE_LEAD_MS : ℚ := 300

/-- State of a `LeaderStateMachine`. `hasConnection` records whether the
connection manager exists (the transport itself is external). -/
structure LeaderSM where
  state : LeaderState
  roomState : Option RoomState
  hasConnection : Bool
  metronome : Metronome
  myId : String
deriving DecidableEq

/-- Freshly constructed `LeaderStateMachine`. -/
def LeaderSM.init (myId : String) : LeaderSM :=
  { state := LeaderState.L_IDLE, roomState := none, hasConnection := false
    metronome := Metronome.init, myId := myId }

/-- `LeaderStateMachine.createRoom`: throws `Room already exists` unless idle;
otherwise initializes the room state, connects, wires handlers, and opens the
room. `roomId` stands for `preferredRoomId ?? generateRoomId()`. -/
def LeaderSM.createRoom (sm : LeaderSM) (bpm : ℚ) (roomId : String) :
    Except String LeaderSM :=
  if sm.state ≠ LeaderState.L_IDLE then Except.error "Room already exists"
  else
    Except.ok { sm with
      roomState := some (RoomState.mk0 roomId sm.myId bpm)
      hasConnection := true
      state := LeaderState.L_ROOM_OPEN }

/-- `LeaderStateMachine.startMetronome`: throws `Room not open` unless the room
is open, throws `Room state not initialized` when room state or connection is
missing; otherwise anchors at `now` with beat index 0, marks running,
broadcasts the start announcement, and starts the local metronome from the
same grid. -/
def LeaderSM.startMetronome (sm : LeaderSM) (now contextTime : ℚ) :
    Except String (LeaderSM × List ControlMsg) :=
  if sm.state ≠ LeaderState.L_ROOM_OPEN then Except.error "Room not open"
  else
    match sm.roomState, sm.hasConnection with
    | some room, true =>
      let bpm := room.bpm
      let startAtLeaderMs := now
      let room1 := (room.setBeatAnchor startAtLeaderMs 0).setStatus RoomStatus.running
      let announcement := ControlMsg.startAnnounce bpm room1.version startAtLeaderMs 0
      let met1 := sm.metronome.setBeatGrid now contextTime
        { bpm := bpm, anchorPerformanceMs := startAtLeaderMs, beatIndexAtAnchor := 0 }
      let met2 := met1.start now contextTime bpm
      Except.ok ({ sm with roomState := some room1, state := LeaderState.L_RUNNING
                           metronome := met2 },
                 [announcement])
    | _, _ => Except.error "Room state not initialized"

/-- `LeaderStateMachine.stopMetronome`: silently returns unless running;
otherwise stops the local metronome, reopens the room, and broadcasts a stop
announcement. -/
def LeaderSM.stopMetronome (sm : LeaderSM) : LeaderSM × List ControlMsg :=
  if sm.state ≠ LeaderState.L_RUNNING then (sm, [])
  else
    let met := sm.metronome.stop
    let room1 := sm.roomState.map (fun r => r.setStatus RoomStatus.roomOpen)
    ({ sm with metronome := met, roomState := room1, state := LeaderState.L_ROOM_OPEN },
     [ControlMsg.stopAnnounce])

/-- `LeaderStateMachine.setBPM`: silently returns without room state or
connection; no-op when the tempo is unchanged (checked before the version
bump). Otherwise bumps the version; when running with a previous anchor,
re-anchors the tempo change on an old-tempo beat boundary computed from
`BPM_CHANGE_LEAD_MS` and broadcasts a fresh start announcement; otherwise
broadcasts a param update. -/
def LeaderSM.setBPM (sm : LeaderSM) (now contextTime bpm : ℚ) :
    LeaderSM × List ControlMsg :=
  match sm.roomState, sm.hasConnection with
  | some previous, true =>
    if previous.bpm = bpm then (sm, [])
    else
      let room1 := previous.setBPM bpm
      match previous.startAtLeaderMs with
      | some previousStartAtLeaderMs =>
        if sm.state = LeaderState.L_RUNNING then
          let msPerBeatOld := 60000 / previous.bpm
          let baseBeatIndex := previous.beatIndexAtAnchor.getD 0
          let elapsedMs := max 0 (now - previousStartAtLeaderMs)
          let beatsSinceAnchor : Int := ⌊elapsedMs / msPerBeatOld⌋
          let currentBeatIndex := baseBeatIndex + beatsSinceAnchor
          let currentBeatTime :=
            previousStartAtLeaderMs + (currentBeatIndex - baseBeatIndex) * msPerBeatOld
          let leadRemainingMs := max 0 (BPM_CHANGE_LEAD_MS - (now - currentBeatTime))
          let beatsAhead : Int := max 1 ⌈leadRemainingMs / msPerBeatOld⌉
          let changeBeatIndex := currentBeatIndex + beatsAhead
          let changeAtLeaderMs :=
            previousStartAtLeaderMs + (changeBeatIndex - baseBeatIndex) * msPerBeatOld
          let room2 := room1.setBeatAnchor changeAtLeaderMs changeBeatIndex
          let met := sm.metronome.setBeatGrid now contextTime
            { bpm := bpm, anchorPerformanceMs := changeAtLeaderMs
              beatIndexAtAnchor := changeBeatIndex }
          ({ sm with roomState := some room2, metronome := met },
           [ControlMsg.startAnnounce bpm room1.version changeAtLeaderMs changeBeatIndex])
        else
          ({ sm with roomState := some room1 },
           [ControlMsg.paramUpdate bpm room1.version])
      | none =>
        ({ sm with roomState := some room1 },
         [ControlMsg.paramUpdate bpm room1.version])
  | _, _ => (sm, [])

/-! ## Peer machine (`src/state/peer-machine.ts`) -/

/-- Peer state machine states. -/
inductive PeerState
  | C_IDLE
  | C_DISCOVERING
  | C_SIGNALING
  | C_SYNCING
  | C_RUNNING
  | C_FAILED
deriving DecidableEq

/-- A playback start armed with `setTimeout` by `handleStartAnnounce`:
the delay until the metronome is started and the tempo it is started with. -/
structure ScheduledStart where
  delayMs : ℚ
  bpm : ℚ
deriving DecidableEq

/-- State of a `PeerStateMachine`. -/
structure PeerSM where
  state : PeerState
  clockSync : ClockSync
  metronome : Metronome
  roomId : Option String
  hasConnection : Bool
  myId : String
deriving DecidableEq

/-- Freshly constructed `PeerStateMachine`. -/
def PeerSM.init (myId : String) : PeerSM :=
  { state := PeerState.C_IDLE, clockSync := ClockSync.init
    metronome := Metronome.init, roomId := none, hasConnection := false
    myId := myId }

/-- `PeerStateMachine.joinRoom`: throws `Already in a room` unless idle;
otherwise records the room id, connects, and ends the synchronous part of the
call in `C_SIGNALING` (the source passes through `C_DISCOVERING` first and
moves to `C_SYNCING` only in the asynchronous on-connected callback). -/
def PeerSM.joinRoom (sm : PeerSM) (roomId : String) : Except String PeerSM :=
  if sm.state ≠ PeerState.C_IDLE then Except.error "Already in a room"
  else
    Except.ok { sm with roomId := some roomId, hasConnection := true
                        state := PeerState.C_SIGNALING }

/-- `PeerStateMachine.handleClockOffset`: apply the leader-calculated offset
directly via `ClockSync.setOffsetMs`. -/
def PeerSM.handleClockOffset (sm : PeerSM) (offsetMs : ℚ) : PeerSM :=
  { sm with clockSync := sm.clockSync.setOffsetMs offsetMs }

/-- The `start_announce` payload. -/
structure StartAnnouncePayload where
  bpm : ℚ
  version : Nat
  anchorLeaderMs : ℚ
  beatIndexAtAnchor : Int
deriving DecidableEq

/-- `PeerStateMachine.handleStartAnnounce`: converts the leader anchor to peer
time by adding the current clock offset, installs the resulting beat grid on
the metronome, and arms a `setTimeout` that will start the metronome after
`max(0, anchorPeerMs - now)` ms. The returned `ScheduledStart` records that
armed timeout; the source arms it unconditionally on every call. -/
def PeerSM.handleStartAnnounce (sm : PeerSM) (now contextTime : ℚ)
    (payload : StartAnnouncePayload) : PeerSM × Option ScheduledStart :=
  let offsetMs := sm.clockSync.currentOffsetMs
  let anchorPeerMs := payload.anchorLeaderMs + offsetMs
  let met := sm.metronome.setBeatGrid now contextTime
    { bpm := payload.bpm, anchorPerformanceMs := anchorPeerMs
      beatIndexAtAnchor := payload.beatIndexAtAnchor }
  let delayMs := max 0 (anchorPeerMs - now)
  ({ sm with metronome := met },
   some { delayMs := delayMs, bpm := payload.bpm })

/-- The `setTimeout` continuation armed by `handleStartAnnounce`: starts the
metronome at the announced tempo and moves to `C_RUNNING`. -/
def PeerSM.fireScheduledStart (sm : PeerSM) (now contextTime : ℚ)
    (sched : ScheduledStart) : PeerSM :=
  { sm with metronome := sm.metronome.start now contextTime sched.bpm
            state := PeerState.C_RUNNING }

/-! ## Helper lemmas -/

/-- The refill loop never touches the installed beat grid. -/
theorem scheduleAheadLoop_beatGrid (now contextTime target : ℚ) :
    ∀ (fuel : Nat) (m : Metronome),
      (scheduleAheadLoop now contextTime target fuel m).beatGrid = m.beatGrid := by
  intro fuel
  induction fuel with
  | zero => intro m; rfl
  | succ n ih =>
    intro m
    rw [scheduleAheadLoop]
    split
    · rw [ih]
      split
      · simp only [Metronome.scheduleClick]
        split <;> rfl
      · rfl
    · rfl

/-- `scheduleAhead` never touches the installed beat grid. -/
theorem scheduleAhead_beatGrid (m : Metronome) (now contextTime : ℚ) :
    (m.scheduleAhead now contextTime).beatGrid = m.beatGrid := by
  rw [Metronome.scheduleAhead]
  split
  · rfl
  · rw [scheduleAheadLoop_beatGrid]

/-- `resetScheduleCursor` never touches the installed beat grid. -/
theorem resetScheduleCursor_beatGrid (m : Metronome) (now : ℚ) :
    (m.resetScheduleCursor now).beatGrid = m.beatGrid := by
  rw [Metronome.resetScheduleCursor]
  split <;> rfl

/-- `setBeatGrid` installs exactly the supplied grid. -/
theorem setBeatGrid_beatGrid (m : Metronome) (now contextTime : ℚ) (g : BeatGrid) :
    (m.setBeatGrid now contextTime g).beatGrid = some g := by
  rw [Metronome.setBeatGrid]
  split
  · rw [scheduleAhead_beatGrid, resetScheduleCursor_beatGrid]
  · rw [resetScheduleCursor_beatGrid]

/-- Closed form of the state produced by `processPong`, conditional on the
median of the post-add window. -/
theorem processPong_char (s : ClockSync) (t1 t2 t3 t4 m : ℚ)
    (hm : getMedian (rttWindowAdd s.rttWindow (t4 - t1 - (t3 - t2))) = some m) :
    (s.processPong t1 t2 t3 t4).1 =
      (if t4 - t1 - (t3 - t2) ≤ m * (3 / 2) then
        { s with rttWindow := rttWindowAdd s.rttWindow (t4 - t1 - (t3 - t2))
                 lastRTT := t4 - t1 - (t3 - t2)
                 offsetFilter := some (emaUpdate s.offsetFilter ((t2 - t1 + (t3 - t4)) / 2))
                 currentOffsetMs := emaUpdate s.offsetFilter ((t2 - t1 + (t3 - t4)) / 2) }
      else
        { s with rttWindow := rttWindowAdd s.rttWindow (t4 - t1 - (t3 - t2))
                 lastRTT := t4 - t1 - (t3 - t2) }) := by
  simp only [ClockSync.processPong, hm]

/-! ## Claim theorems -/

/-- C1. `processPong(t1, t2, t3, t4)` records `rtt = (t4 − t1) − (t3 − t2)`
(as `lastRTT` and as the sample appended to the RTT window), and the raw
offset it feeds into the EMA smoother — exactly when the outlier gate passes —
equals `((t2 − t1) + (t3 − t4)) / 2`; for inputs with `t1 ≤ t2 ≤ t3 ≤ t4` the
rtt is ≥ 0. The offset is a rational in this model, hence always a finite
number. -/
theorem clockSync_processPong_formulas (s : ClockSync) (t1 t2 t3 t4 : ℚ) :
    (s.processPong t1 t2 t3 t4).1.lastRTT = t4 - t1 - (t3 - t2) ∧
    (s.processPong t1 t2 t3 t4).1.rttWindow =
      rttWindowAdd s.rttWindow (t4 - t1 - (t3 - t2)) ∧
    (∀ m, getMedian (rttWindowAdd s.rttWindow (t4 - t1 - (t3 - t2))) = some m →
      (s.processPong t1 t2 t3 t4).1.offsetFilter =
        (if t4 - t1 - (t3 - t2) ≤ m * (3 / 2)
         then some (emaUpdate s.offsetFilter ((t2 - t1 + (t3 - t4)) / 2))
         else s.offsetFilter)) ∧
    (t1 ≤ t2 → t2 ≤ t3 → t3 ≤ t4 → 0 ≤ (s.processPong t1 t2 t3 t4).1.lastRTT) := by
  have hrtt : (s.processPong t1 t2 t3 t4).1.lastRTT = t4 - t1 - (t3 - t2) := by
    simp only [ClockSync.processPong]
    cases hm : getMedian (rttWindowAdd s.rttWindow (t4 - t1 - (t3 - t2))) with
    | none => rfl
    | some m =>
      simp only
      split <;> rfl
  have hwin : (s.processPong t1 t2 t3 t4).1.rttWindow =
      rttWindowAdd s.rttWindow (t4 - t1 - (t3 - t2)) := by
    simp only [ClockSync.processPong]
    cases hm : getMedian (rttWindowAdd s.rttWindow (t4 - t1 - (t3 - t2))) with
    | none => rfl
    | some m =>
      simp only
      split <;> rfl
  refine ⟨hrtt, hwin, ?_, ?_⟩
  · intro m hm
    rw [processPong_char s t1 t2 t3 t4 m hm]
    split <;> rfl
  · intro h12 h23 h34
    rw [hrtt]
    linarith

/-- C1 witness: at `s = init`, `(t1, t2, t3, t4) = (0, 1, 2, 3)` the ordering
hypotheses hold and the recorded rtt is `3 − 0 − (2 − 1) = 2 ≥ 0`. -/
theorem clockSync_processPong_formulas_witness :
    (0 : ℚ) ≤ 1 ∧ (1 : ℚ) ≤ 2 ∧ (2 : ℚ) ≤ 3 ∧
    0 ≤ (ClockSync.init.processPong 0 1 2 3).1.lastRTT :=
  ⟨by norm_num, by norm_num, by norm_num,
   (clockSync_processPong_formulas ClockSync.init 0 1 2 3).2.2.2
     (by norm_num) (by norm_num) (by norm_num)⟩

/-- C3. A pong sample whose rtt exceeds 1.5× the RTT-window median (the
median of the window that already includes the new sample, which is the value
the source compares against) leaves both the smoothed offset and the EMA
filter state exactly unchanged, while the RTT window still records the
outlier; and the offset changes only when `rtt ≤ 1.5 × median`. -/
theorem clockSync_outlier_leaves_offset_unchanged (s : ClockSync) (t1 t2 t3 t4 m : ℚ)
    (hm : getMedian (rttWindowAdd s.rttWindow (t4 - t1 - (t3 - t2))) = some m)
    (hout : m * (3 / 2) < t4 - t1 - (t3 - t2)) :
    (s.processPong t1 t2 t3 t4).1.currentOffsetMs = s.currentOffsetMs ∧
    (s.processPong t1 t2 t3 t4).1.offsetFilter = s.offsetFilter ∧
    (s.processPong t1 t2 t3 t4).1.rttWindow =
      rttWindowAdd s.rttWindow (t4 - t1 - (t3 - t2)) ∧
    ((s.processPong t1 t2 t3 t4).1.currentOffsetMs ≠ s.currentOffsetMs →
      t4 - t1 - (t3 - t2) ≤ m * (3 / 2)) := by
  have h := processPong_char s t1 t2 t3 t4 m hm
  rw [if_neg (not_le.mpr hout)] at h
  rw [h]
  exact ⟨rfl, rfl, rfl, fun hne => absurd rfl hne⟩

/-- C3 witness: window `[10, 10, 10]`, smoothed offset 5; the sample
`(0, 0, 0, 100)` has rtt 100, the post-add window `[10, 10, 10, 100]` has
median 10, and `100 > 15`; the offset stays 5. -/
theorem clockSync_outlier_witness :
    getMedian (rttWindowAdd [10, 10, 10] 100) = some 10 ∧
    (10 : ℚ) * (3 / 2) < 100 ∧
    ((ClockSync.mk [10, 10, 10] (some 5) 5 10).processPong 0 0 0 100).1.currentOffsetMs = 5 :=
  ⟨by norm_num [getMedian, rttWindowAdd, sortAsc, insertAsc, RTT_WINDOW_SIZE],
   by norm_num,
   (clockSync_outlier_leaves_offset_unchanged (ClockSync.mk [10, 10, 10] (some 5) 5 10)
     0 0 0 100 10
     (by norm_num [getMedian, rttWindowAdd, sortAsc, insertAsc, RTT_WINDOW_SIZE])
     (by norm_num)).1⟩

/-- C10. `peerToLeaderTime` and `leaderToPeerTime` are exact inverses, and in
the freshly constructed state and after `reset()` the offset is 0, making both
conversions the identity. -/
theorem clockSync_conversions_inverse (s : ClockSync) (x : ℚ) :
    s.peerToLeaderTime (s.leaderToPeerTime x) = x ∧
    ClockSync.init.currentOffsetMs = 0 ∧
    (s.reset).currentOffsetMs = 0 ∧
    ClockSync.init.leaderToPeerTime x = x ∧
    ClockSync.init.peerToLeaderTime x = x ∧
    (s.reset).leaderToPeerTime x = x ∧
    (s.reset).peerToLeaderTime x = x := by
  refine ⟨?_, rfl, rfl, ?_, ?_, ?_, ?_⟩ <;>
    simp [ClockSync.peerToLeaderTime, ClockSync.leaderToPeerTime, ClockSync.reset,
      ClockSync.init]

/-- C6. `stop()` leaves zero pending scheduled events: the scheduled-sources
list and the scheduled-visual-timeouts list are emptied, the periodic refill
interval is cancelled, and `running()` afterwards returns false (proved for
every metronome state, in particular every running one). -/
theorem metronome_stop_leaves_no_pending (m : Metronome) :
    (m.stop).scheduledSources = [] ∧
    (m.stop).scheduledVisualTimeoutIds = [] ∧
    (m.stop).schedulerIntervalId = none ∧
    (m.stop).isRunning = false :=
  ⟨rfl, rfl, rfl, rfl⟩

/-- C9. `start(bpm)` on an already-running metronome is a complete no-op: the
state — tempo, beat grid, schedule cursor, scheduled events, everything — is
returned unchanged. -/
theorem metronome_start_noop_when_running (m : Metronome) (now contextTime bpm : ℚ)
    (h : m.isRunning = true) : m.start now contextTime bpm = m := by
  simp [Metronome.start, h]

/-- C9 witness: a concrete running metronome started again at a different
tempo is unchanged. -/
theorem metronome_start_noop_witness :
    (Metronome.mk 120 true (some 1) (some (BeatGrid.mk 120 0 0)) 0 0 [] [] false
      false).start 400 3 999 =
    Metronome.mk 120 true (some 1) (some (BeatGrid.mk 120 0 0)) 0 0 [] [] false false :=
  metronome_start_noop_when_running _ 400 3 999 rfl

/-- After a tempo-changing `setBPM`, the room holds the new tempo with the
version bumped by exactly one, the connection is still present, and exactly
one broadcast was emitted. -/
theorem leader_setBPM_change_shape (sm : LeaderSM) (room : RoomState)
    (now contextTime bpm : ℚ) (hroom : sm.roomState = some room)
    (hconn : sm.hasConnection = true) (hneq : ¬ room.bpm = bpm) :
    ∃ room1, (sm.setBPM now contextTime bpm).1.roomState = some room1 ∧
      room1.bpm = bpm ∧ room1.version = room.version + 1 ∧
      (sm.setBPM now contextTime bpm).1.hasConnection = true ∧
      (sm.setBPM now contextTime bpm).2.length = 1 := by
  simp only [LeaderSM.setBPM, hroom, hconn]
  rw [if_neg hneq]
  split
  · split
    · exact ⟨_, rfl, rfl, rfl, rfl, rfl⟩
    · exact ⟨_, rfl, rfl, rfl, rfl, rfl⟩
  · exact ⟨_, rfl, rfl, rfl, rfl, rfl⟩

/-- `setBPM` with the room's current tempo is a no-op emitting no broadcast
(whether or not a connection manager exists). -/
theorem leader_setBPM_noop (sm : LeaderSM) (room : RoomState) (now contextTime bpm : ℚ)
    (hroom : sm.roomState = some room) (hb : room.bpm = bpm) :
    sm.setBPM now contextTime bpm = (sm, []) := by
  cases hcon : sm.hasConnection with
  | false => simp only [LeaderSM.setBPM, hroom, hcon]
  | true =>
    simp only [LeaderSM.setBPM, hroom, hcon]
    rw [if_pos hb]

/-- C7. Calling the host's `setBPM` twice in a row with the same value (that
differs from the current tempo) triggers exactly one broadcast in total: the
first call emits one broadcast and bumps the version by exactly one, the
second call mutates nothing and emits nothing (the equality check precedes the
version bump). -/
theorem leader_setBPM_twice_one_broadcast (sm : LeaderSM) (room : RoomState)
    (now1 ctx1 now2 ctx2 bpm : ℚ) (hroom : sm.roomState = some room)
    (hconn : sm.hasConnection = true) (hneq : ¬ room.bpm = bpm) :
    (sm.setBPM now1 ctx1 bpm).2.length = 1 ∧
    (∃ room1, (sm.setBPM now1 ctx1 bpm).1.roomState = some room1 ∧
      room1.bpm = bpm ∧ room1.version = room.version + 1) ∧
    (sm.setBPM now1 ctx1 bpm).1.setBPM now2 ctx2 bpm =
      ((sm.setBPM now1 ctx1 bpm).1, []) := by
  obtain ⟨room1, h1, hb, hv, hc, hlen⟩ :=
    leader_setBPM_change_shape sm room now1 ctx1 bpm hroom hconn hneq
  exact ⟨hlen, ⟨room1, h1, hb, hv⟩, leader_setBPM_noop _ room1 now2 ctx2 bpm h1 hb⟩

/-- C7 witness: an open room at 120 BPM; the first `setBPM 140` emits one
broadcast, the second emits none and changes nothing. -/
theorem leader_setBPM_twice_witness :
    ((LeaderSM.mk LeaderState.L_ROOM_OPEN (some (RoomState.mk0 "R" "h" 120)) true
        Metronome.init "h").setBPM 0 0 140).2.length = 1 ∧
    ((LeaderSM.mk LeaderState.L_ROOM_OPEN (some (RoomState.mk0 "R" "h" 120)) true
        Metronome.init "h").setBPM 0 0 140).1.setBPM 5 5 140 =
      (((LeaderSM.mk LeaderState.L_ROOM_OPEN (some (RoomState.mk0 "R" "h" 120)) true
        Metronome.init "h").setBPM 0 0 140).1, []) := by
  obtain ⟨h1, _h2, h3⟩ :=
    leader_setBPM_twice_one_broadcast
      (LeaderSM.mk LeaderState.L_ROOM_OPEN (some (RoomState.mk0 "R" "h" 120)) true
        Metronome.init "h")
      (RoomState.mk0 "R" "h" 120) 0 0 5 5 140 rfl rfl (by norm_num [RoomState.mk0])
  exact ⟨h1, h3⟩

/-- C8 counterexample. `stopMetronome` called while the metronome is not
running — a protocol-misuse per the claim — is silently ignored: on a leader
whose room is open but not running it returns the state unchanged with no
broadcast, and the source path contains no `throw` at all, contradicting the
claim that such misuse is surfaced as an exception. -/
theorem leader_stopMetronome_silently_ignored :
    (LeaderSM.mk LeaderState.L_ROOM_OPEN (some (RoomState.mk0 "R" "h" 120)) true
        Metronome.init "h").stopMetronome =
      (LeaderSM.mk LeaderState.L_ROOM_OPEN (some (RoomState.mk0 "R" "h" 120)) true
        Metronome.init "h", []) := rfl

/-- C8 amended. `createRoom` while not idle, `startMetronome` while the room
is not open, and `joinRoom` while not idle are each surfaced synchronously as
an exception; `stopMetronome` while not running, by contrast, silently returns
without any effect. -/
theorem leader_protocol_misuse_surfaced (sm1 sm2 : LeaderSM) (sp : PeerSM)
    (bpm now contextTime : ℚ) (rid : String) :
    (sm1.state ≠ LeaderState.L_IDLE →
      sm1.createRoom bpm rid = Except.error "Room already exists") ∧
    (sm1.state ≠ LeaderState.L_ROOM_OPEN →
      sm1.startMetronome now contextTime = Except.error "Room not open") ∧
    (sp.state ≠ PeerState.C_IDLE →
      sp.joinRoom rid = Except.error "Already in a room") ∧
    (sm2.state ≠ LeaderState.L_RUNNING → sm2.stopMetronome = (sm2, [])) := by
  refine ⟨fun h => ?_, fun h => ?_, fun h => ?_, fun h => ?_⟩
  · simp only [LeaderSM.createRoom, if_pos h]
  · simp only [LeaderSM.startMetronome, if_pos h]
  · simp only [PeerSM.joinRoom, if_pos h]
  · simp only [LeaderSM.stopMetronome, if_pos h]

/-- C8 amended witness: a leader with an open room rejects `createRoom`, an
idle leader rejects `startMetronome`, a signaling peer rejects `joinRoom`, and
an idle leader's `stopMetronome` is a silent no-op. -/
theorem leader_protocol_misuse_witness :
    (LeaderSM.mk LeaderState.L_ROOM_OPEN (some (RoomState.mk0 "R" "h" 120)) true
        Metronome.init "h").createRoom 120 "R2" = Except.error "Room already exists" ∧
    (LeaderSM.init "h").startMetronome 0 0 = Except.error "Room not open" ∧
    (PeerSM.mk PeerState.C_SIGNALING ClockSync.init Metronome.init (some "R") true
        "p").joinRoom "R" = Except.error "Already in a room" ∧
    (LeaderSM.init "h").stopMetronome = (LeaderSM.init "h", []) :=
  ⟨(leader_protocol_misuse_surfaced
      (LeaderSM.mk LeaderState.L_ROOM_OPEN (some (RoomState.mk0 "R" "h" 120)) true
        Metronome.init "h")
      (LeaderSM.init "h")
      (PeerSM.mk PeerState.C_SIGNALING ClockSync.init Metronome.init (some "R") true "p")
      120 0 0 "R2").1 (by simp),
   (leader_protocol_misuse_surfaced (LeaderSM.init "h") (LeaderSM.init "h")
      (PeerSM.mk PeerState.C_SIGNALING ClockSync.init Metronome.init (some "R") true "p")
      120 0 0 "R2").2.1 (by simp [LeaderSM.init]),
   (leader_protocol_misuse_surfaced (LeaderSM.init "h") (LeaderSM.init "h")
      (PeerSM.mk PeerState.C_SIGNALING ClockSync.init Metronome.init (some "R") true "p")
      120 0 0 "R").2.2.1 (by simp),
   (leader_protocol_misuse_surfaced (LeaderSM.init "h") (LeaderSM.init "h")
      (PeerSM.mk PeerState.C_SIGNALING ClockSync.init Metronome.init (some "R") true "p")
      120 0 0 "R").2.2.2 (by simp [LeaderSM.init])⟩

/-- C2 failing input. A running host at 120 BPM (beat period 500ms), anchored
at time 0, calls `setBPM 140` at `now = 400` — i.e. 400ms after the last beat.
The broadcast re-anchor lands on the next old-tempo beat at `changeAtTime =
500`, which is a whole-beat multiple past the previous anchor but only 100ms
ahead of `now`: the code's `leadRemainingMs = max(0, 300 - (now -
currentBeatTime))` subtracts the time already elapsed since the last beat
instead of adding it, so the claimed guarantee `changeAtTime ≥ now + 300`
fails while the intent of `BPM_CHANGE_LEAD_MS` (a 300ms lead for followers)
clearly requires it. -/
theorem leader_setBPM_lead_time_violation :
    ((LeaderSM.mk LeaderState.L_RUNNING
        (some (RoomState.mk "R" "h" 120 0 RoomStatus.running (some 0) (some 0)))
        true
        (Metronome.mk 120 true (some 7) (some (BeatGrid.mk 120 0 0)) 0 0 [] [] false false)
        "h").setBPM 400 10 140).2 =
      [ControlMsg.startAnnounce 140 1 500 1] ∧
    ¬ ((500 : ℚ) ≥ 400 + BPM_CHANGE_LEAD_MS) ∧
    (500 : ℚ) - 0 = 1 * (60000 / 120) := by
  refine ⟨?_, by norm_num [BPM_CHANGE_LEAD_MS], by norm_num⟩
  norm_num [LeaderSM.setBPM, RoomState.setBPM, RoomState.setBeatAnchor,
    BPM_CHANGE_LEAD_MS, max_def]

/-- C4 counterexample. A follower that has received zero host-pushed
clock-offset updates (its `ClockSync` is still the freshly constructed state)
receives a start-announcement and `handleStartAnnounce` immediately arms the
playback-start timeout — the claim that playback is never scheduled before the
2nd offset update arrives is false: there is no offset-update counting and no
pending hold in the source. -/
theorem peer_startAnnounce_schedules_with_zero_offset_updates :
    ((PeerSM.mk PeerState.C_SYNCING ClockSync.init Metronome.init (some "R") true
        "p").handleStartAnnounce 1000 0
        (StartAnnouncePayload.mk 120 1 2000 0)).2 =
      some (ScheduledStart.mk 1000 120) := by
  norm_num [PeerSM.handleStartAnnounce, ClockSync.init, max_def]

/-- C4 amended. On every start-announcement receipt — regardless of how many
clock-offset updates have been received — the follower immediately arms the
playback start with delay `max(0, anchorPeerMs − now)`; there is no
minimum-offset-samples gate. -/
theorem peer_startAnnounce_always_schedules (sm : PeerSM) (now contextTime : ℚ)
    (payload : StartAnnouncePayload) :
    (sm.handleStartAnnounce now contextTime payload).2 =
      some (ScheduledStart.mk
        (max 0 (payload.anchorLeaderMs + sm.clockSync.currentOffsetMs - now))
        payload.bpm) := rfl

/-- C5 counterexample. A start-announcement whose converted anchor lies 1000ms
in the past is scheduled with delay `max(0, −1000) = 0`, not 250: the claimed
250ms minimum startup floor does not exist in the source. -/
theorem peer_startAnnounce_no_min_delay_floor :
    ((PeerSM.mk PeerState.C_SYNCING ClockSync.init Metronome.init (some "R") true
        "q").handleStartAnnounce 1000 0
        (StartAnnouncePayload.mk 120 1 0 0)).2 =
      some (ScheduledStart.mk 0 120) ∧
    (0 : ℚ) < 250 := by
  refine ⟨?_, by norm_num⟩
  norm_num [PeerSM.handleStartAnnounce, ClockSync.init, max_def]

/-- C5 amended. On start-announcement receipt the follower converts the host
anchor to local time by adding the current offset, installs exactly the
resulting beat grid, and schedules the playback start after
`max(0, anchorPeerMs − now)` — with no 250ms floor, so a past anchor starts
with zero delay. -/
theorem peer_startAnnounce_grid_and_delay (sm : PeerSM) (now contextTime : ℚ)
    (payload : StartAnnouncePayload) :
    (sm.handleStartAnnounce now contextTime payload).1.metronome.beatGrid =
      some (BeatGrid.mk payload.bpm
        (payload.anchorLeaderMs + sm.clockSync.currentOffsetMs)
        payload.beatIndexAtAnchor) ∧
    (sm.handleStartAnnounce now contextTime payload).2 =
      some (ScheduledStart.mk
        (max 0 (payload.anchorLeaderMs + sm.clockSync.currentOffsetMs - now))
        payload.bpm) := by
  constructor
  · exact setBeatGrid_beatGrid sm.metronome now contextTime _
  · rfl
